import Mathlib

/-!
A shallow embedding of the co-simulation core of the FRISC-V testing
toolchain: the commit-trace parser and reference-process controller
(`src/friscv_toolchain/spike_interface.py`), the per-instruction state
record (`src/friscv_toolchain/state.py`) and the differential comparator
(`src/friscv_toolchain/comparator.py`), together with theorems settling
the spec's claims about them.

Two dynamic-typing facts of the source are modelled explicitly. First,
the reader threads enqueue `('stdout', line)` / `('stderr', line)` TUPLES
(spike_interface.py lines 81 and 93), but `next_commit` hands the raw
queue item to `COMMIT_RE.match` (line 109), `REG_RE.match` (line 123) and
`MEM_RE.search` (line 130) without unpacking it, and `re.Pattern.match`
or `search` on a tuple raises `TypeError: expected string or bytes-like
object`. The queue elements are therefore `PyObj` values, the matching
step is `reApply` (which errors on a tuple), and the parsing loops are
`Except`-valued. Second, `next_commit` writes `run 1` to the subprocess's
stdin (lines 100-101) before reading the queue; with the process already
exited that write raises `BrokenPipeError` (`sendStep`).

The three regular expressions themselves are modelled by deterministic
character-level matchers over the line text, equivalent to Python's
backtracking semantics because in each pattern every greedy character
class is followed by a literal or class disjoint from it (the one
exception, the `\s+(.+)` tail of the commit pattern, is given its
backtracking behaviour explicitly in `takeDisasm`).
-/

deriving instance DecidableEq for Except

namespace Friscv

/-- Python's `\s` class over the ASCII characters that can occur in the
queued lines: space, tab, newline, carriage return, vertical tab, form feed. -/
def isPySpace (c : Char) : Bool :=
  c = ' ' || c = '\t' || c = '\n' || c = '\r' || c = '\x0b' || c = '\x0c'

/-- Python's `\d` on the ASCII inputs at hand: the characters 0-9. -/
def isDigitC (c : Char) : Bool :=
  48 ≤ c.toNat && c.toNat ≤ 57

/-- The class `[0-9a-fA-F]` of the three regexes. -/
def isHexDigitC (c : Char) : Bool :=
  isDigitC c || (97 ≤ c.toNat && c.toNat ≤ 102) || (65 ≤ c.toNat && c.toNat ≤ 70)

/-- Decimal interpretation of a digit run, as `int(...)` applied to a
`\d+` capture does. -/
def digitsToNat (ds : List Char) : Nat :=
  ds.foldl (fun n c => 10 * n + (c.toNat - 48)) 0

/-- Consume the literal characters `lit` at the head of the input. -/
def dropLit : List Char → List Char → Option (List Char)
  | [], r => some r
  | _ :: _, [] => none
  | c :: cs, x :: xs => if x = c then dropLit cs xs else none

/-- `\d+` with its decimal value: at least one digit, greedily. -/
def takeDigits (r : List Char) : Option (Nat × List Char) :=
  let p := r.span isDigitC
  if p.1.isEmpty then none else some (digitsToNat p.1, p.2)

/-- `0x[0-9a-fA-F]+`, returning the matched text (the Python code keeps
these captures as strings, never converting them to integers). -/
def takeHex (r : List Char) : Option (String × List Char) :=
  match r with
  | '0' :: 'x' :: rest =>
      let p := rest.span isHexDigitC
      if p.1.isEmpty then none else some (String.mk ('0' :: 'x' :: p.1), p.2)
  | _ => none

/-- `\s+`: at least one whitespace character, greedily. -/
def dropSpaces1 (r : List Char) : Option (List Char) :=
  let p := r.span isPySpace
  if p.1.isEmpty then none else some p.2

/-- Backtracking case of `\s+(?P<disasm>.+)` when the whole remainder is
whitespace: the engine gives characters back to `.+`, which matches any
character but a newline, so the match succeeds with the largest split
index `k ≥ 1` at which a non-newline character starts the capture. -/
def disasmBacktrack (ws : List Char) : Option String :=
  match (List.range ws.length).reverse.find?
      (fun k => decide (1 ≤ k) && (ws.getD k '\n' != '\n')) with
  | some k => some (String.mk ((ws.drop k).takeWhile (fun c => c != '\n')))
  | none => none

/-- The `\s+(?P<disasm>.+)` tail of `COMMIT_RE`: greedy whitespace, then a
non-empty greedy run of non-newline characters (the pattern is unanchored
at the right, so trailing text beyond a newline is simply not captured). -/
def takeDisasm (r : List Char) : Option String :=
  let p := r.span isPySpace
  if p.1.isEmpty then none
  else if p.2.isEmpty then disasmBacktrack p.1
  else some (String.mk (p.2.takeWhile (fun c => c != '\n')))

/-- `COMMIT_RE.match` on a STRING for
`core\s+(?P<core>\d+):\s+(?P<pc>0x[0-9a-fA-F]+)\s+\((?P<inst>0x[0-9a-fA-F]+)\)\s+(?P<disasm>.+)`
(spike_interface.py line 16), anchored at the start of the line as
`re.match` is, returning `(int(core), pc, inst, disasm)` as
`next_commit` would extract them (lines 111-114). -/
def COMMIT_RE_match (line : String) : Option (Nat × String × String × String) := do
  let r ← dropLit "core".toList line.toList
  let r ← dropSpaces1 r
  let (core, r) ← takeDigits r
  let r ← dropLit [':'] r
  let r ← dropSpaces1 r
  let (pc, r) ← takeHex r
  let r ← dropSpaces1 r
  let r ← dropLit ['('] r
  let (inst, r) ← takeHex r
  let r ← dropLit [')'] r
  let disasm ← takeDisasm r
  pure (core, pc, inst, disasm)

/-- `REG_RE.match` on a STRING for
`\s*x(?P<reg>\d+)\s+=\s+(?P<val>0x[0-9a-fA-F]+)` (spike_interface.py
line 17): note the mandatory `\s+` — at least one whitespace character —
on each side of the equals sign. Returns `(int(reg), val)`. -/
def REG_RE_match (line : String) : Option (Nat × String) := do
  let r := line.toList.dropWhile isPySpace
  let r ← dropLit ['x'] r
  let (reg, r) ← takeDigits r
  let r ← dropSpaces1 r
  let r ← dropLit ['='] r
  let r ← dropSpaces1 r
  let (val, _) ← takeHex r
  pure (reg, val)

/-- The register-write pattern as the spec's wire contract words it:
`\s*x<int>\s*=\s*<hex-value>`, with zero or more whitespace characters on
each side of the equals sign. This definition follows the SPEC's words
(§6), to be compared with `REG_RE_match`, which follows the code. -/
def specRegMatch (line : String) : Option (Nat × String) := do
  let r := line.toList.dropWhile isPySpace
  let r ← dropLit ['x'] r
  let (reg, r) ← takeDigits r
  let r := r.dropWhile isPySpace
  let r ← dropLit ['='] r
  let r := r.dropWhile isPySpace
  let (val, _) ← takeHex r
  pure (reg, val)

/-- A match of `store:\s+addr=(?P<addr>0x[0-9a-fA-F]+)\s+data=(?P<data>0x[0-9a-fA-F]+)`
(spike_interface.py line 18) attempted at the head of the input. -/
def MEM_RE_matchAt (r : List Char) : Option (String × String) := do
  let r ← dropLit "store:".toList r
  let r ← dropSpaces1 r
  let r ← dropLit "addr=".toList r
  let (addr, r) ← takeHex r
  let r ← dropSpaces1 r
  let r ← dropLit "data=".toList r
  let (data, _) ← takeHex r
  pure (addr, data)

/-- Leftmost-position search, as `MEM_RE.search` performs on a string:
try a match at each position from the left. -/
def MEM_RE_searchAux : List Char → Option (String × String)
  | [] => none
  | c :: rest =>
      match MEM_RE_matchAt (c :: rest) with
      | some x => some x
      | none => MEM_RE_searchAux rest

/-- `MEM_RE.search` on a STRING. -/
def MEM_RE_search (line : String) : Option (String × String) :=
  MEM_RE_searchAux line.toList

/-- The stream a reader thread tags its lines with: `'stdout'` (line 81)
or `'stderr'` (line 93). -/
inductive StreamTag where
  | stdout
  | stderr
deriving DecidableEq

/-- A Python object that can reach one of the regex match calls of
`next_commit`. The program's queue only ever holds `pyTuple` values —
`_enqueue_stdout`/`_enqueue_stderr` put `(tag, line)` pairs (lines 81,
93) — but the parsing loops are written as if the items were strings, so
the string case is kept to model what those loops do with a string. -/
inductive PyObj where
  | pyStr (s : String)
  | pyTuple (tag : StreamTag) (line : String)
deriving DecidableEq

/-- What a reader thread enqueues for a (stripped, non-empty) line:
`self._queue.put(('stdout', line))` at line 81, and the `'stderr'`
counterpart at line 93 — a tuple, not the bare line. -/
def enqueue_item (tag : StreamTag) (line : String) : PyObj :=
  PyObj.pyTuple tag line

/-- The Python exceptions that can escape the modelled operations:
`TypeError` (a regex applied to a non-string, or item access on an object
with no `__getitem__`), `BrokenPipeError` (writing to the stdin pipe of
an exited process), `FileNotFoundError` (`Popen` on a missing
executable). -/
inductive PyError where
  | typeError
  | brokenPipe
  | fileNotFound
deriving DecidableEq

/-- Application of a compiled pattern's `match`/`search` to a queue item:
on a string it runs the matcher; on a tuple it raises
`TypeError: expected string or bytes-like object, got 'tuple'`, which is
exactly what `COMMIT_RE.match(line)` at line 109 (and `REG_RE.match` /
`MEM_RE.search` at lines 123/130) do to the unpacked-never queue items. -/
def reApply {α : Type} (matcher : String → Option α) : PyObj → Except PyError (Option α)
  | PyObj.pyStr s => Except.ok (matcher s)
  | PyObj.pyTuple _ _ => Except.error PyError.typeError

/-- The observable field values of a `State` object (state.py lines 1-16)
at a given moment: `core`, `pc`, `inst`, `disasm` (all `None` until a
commit header fills them), the `regs` dict — modelled as an association
list with Python-dict insertion-order update semantics — and the `stores`
list of `(addr, data)` string pairs. -/
structure StateVal where
  core   : Option Nat
  pc     : Option String
  inst   : Option String
  disasm : Option String
  regs   : List (Nat × String)
  stores : List (String × String)
deriving DecidableEq

/-- Python evaluates a `def`'s default parameter values once, when the
`def` is executed. `State.__init__` (state.py lines 8-9) declares
`regs: dict[int, str] = {}` and `stores: list[tuple[str, str]] = []`, so
one single dict object and one single list object are created when the
class body runs and are then shared by every `State()` constructed without
explicit arguments — process-wide, across parser instances and across
`next_commit` calls. `ParserEnv` is the current contents of those two
shared default objects; a fresh process has both empty. -/
structure ParserEnv where
  sharedRegs   : List (Nat × String)
  sharedStores : List (String × String)
deriving DecidableEq

/-- Python dict assignment `d[k] = v` (line 127): an existing key keeps
its position and gets the new value, a new key is appended in insertion
order. -/
def dictInsert : List (Nat × String) → Nat → String → List (Nat × String)
  | [], k, v => [(k, v)]
  | (k₁, v₁) :: rest, k, v =>
      if k₁ = k then (k, v) :: rest else (k₁, v₁) :: dictInsert rest k v

/-- Python dict lookup `d[k]` / `d.get(k)` as an `Option`. -/
def dictLookup : List (Nat × String) → Nat → Option String
  | [], _ => none
  | (k₁, v₁) :: rest, k => if k₁ = k then some v₁ else dictLookup rest k

/-- Lines 99-101 of `next_commit`:
`self.proc.stdin.write('run 1\n'); self.proc.stdin.flush()` (after a
successful `start`, `self.proc` and its stdin pipe are set). Writing to
the stdin pipe of a subprocess that has already exited raises
`BrokenPipeError`; on a running process the write succeeds. -/
def sendStep : Bool → Except PyError Unit
  | true => Except.ok ()
  | false => Except.error PyError.brokenPipe

/-- The first (blocking) loop of `next_commit` (spike_interface.py lines
103-115): pull items from the queue, applying `COMMIT_RE.match` to each
raw item (line 109) — which raises `TypeError` on the `(tag, line)`
tuples the readers enqueue; a non-matching string item is consumed and
dropped; the loop breaks at the first item matching as a commit header,
yielding its captures and the items still queued behind it. An exhausted
queue models `queue.Empty` after the timeout: the result is `none`. -/
def seekHeader : List PyObj →
    Except PyError (Option ((Nat × String × String × String) × List PyObj))
  | [] => Except.ok none
  | item :: rest => do
      match ← reApply COMMIT_RE_match item with
      | some h => pure (some (h, rest))
      | none => seekHeader rest

/-- The second (non-blocking) loop of `next_commit` (lines 117-134): keep
calling `get_nowait()` until the queue is empty, applying `REG_RE.match`
(line 123) and then `MEM_RE.search` (line 130) to each raw item — again a
`TypeError` on any tuple. On a string item: a register match updates the
regs dict (and `continue`s), otherwise a store match appends to the
stores list, otherwise the item is dropped — including a further commit
header, for which this loop never tests. -/
def sweep : List PyObj → List (Nat × String) → List (String × String) →
    Except PyError (List (Nat × String) × List (String × String))
  | [], regs, st => Except.ok (regs, st)
  | item :: rest, regs, st => do
      match ← reApply REG_RE_match item with
      | some rv => sweep rest (dictInsert regs rv.1 rv.2) st
      | none =>
          match ← reApply MEM_RE_search item with
          | some ad => sweep rest regs (st ++ [(ad.1, ad.2)])
          | none => sweep rest regs st

/-- `SpikeInterface.next_commit` (spike_interface.py lines 96-136).
`running` is whether the subprocess is still alive when the `run 1`
stdin write of lines 100-101 happens; `q` holds the items currently in
the shared queue. `state = State()` (line 97) makes
`state.regs`/`state.stores` alias the shared default objects of
`ParserEnv`, so the sweep's mutations are mutations of those shared
objects. The result is the observable value of the returned `State` (or
`none` on `queue.Empty`, line 107), the shared objects' new contents and
the items left in the queue — or the Python exception
(`BrokenPipeError` from the write, `TypeError` from a regex call on a
queued tuple) that escapes the call. -/
def next_commit (running : Bool) (env : ParserEnv) (q : List PyObj) :
    Except PyError (Option StateVal × ParserEnv × List PyObj) := do
  sendStep running
  match ← seekHeader q with
  | none => pure (none, env, [])
  | some (h, rest) => do
      let rs ← sweep rest env.sharedRegs env.sharedStores
      pure (some ⟨some h.1, some h.2.1, some h.2.2.1, some h.2.2.2, rs.1, rs.2⟩,
            ⟨rs.1, rs.2⟩, [])

/-- `SpikeInterface.start` (spike_interface.py lines 33-61) calls
`subprocess.Popen(cmd, ...)`; a missing or non-invocable executable makes
`Popen` raise `FileNotFoundError`, which `start` does not catch, so a
launch failure surfaces to the caller as an exception. -/
def start (spikeBinaryRunnable : Bool) : Except PyError Unit :=
  if spikeBinaryRunnable then Except.ok () else Except.error PyError.fileNotFound

/-- A Python value appearing in `compare_run`'s comparison expression
(comparator.py line 28): `None` (what `{}.get(...)` yields), a regs dict,
or a stores list. -/
inductive PyVal where
  | pyNone
  | pyDict (d : List (Nat × String))
  | pyList (l : List (String × String))
deriving DecidableEq

/-- `class State` (state.py lines 1-16) defines only `__init__`: it has no
`__getitem__`, so subscripting a `State` instance — `spike_state['regs']`,
`spike_state['stores']`, `spike_state['pc']` — raises `TypeError` for
every key. -/
def State.getItem (_s : StateVal) (_key : String) : Except PyError PyVal :=
  Except.error PyError.typeError

/-- `VivadoInterface.step_cycle` (vivado_interface.py lines 18-19) returns
the empty dict `{}`. -/
def step_cycle : List (String × PyVal) := []

/-- Python `dict.get(k)`: the value at `k`, or `None` when absent. -/
def dictGet (d : List (String × PyVal)) (k : String) : PyVal :=
  match d.find? (fun p => p.1 == k) with
  | some p => p.2
  | none => PyVal.pyNone

/-- The comparison expression of `compare_run` (comparator.py line 28):
`spike_state['regs'] != vivado_state.get('regs') or
 spike_state['stores'] != vivado_state.get('stores')`,
with Python's left-to-right short-circuit evaluation; `vivado_state` is
`step_cycle`'s `{}`. A raised `TypeError` propagates as `Except.error`;
`ok true` is the mismatch branch, `ok false` continues the loop. -/
def compareStep (s : StateVal) : Except PyError Bool := do
  let sr ← State.getItem s "regs"
  if sr ≠ dictGet step_cycle "regs" then
    pure true
  else
    let ss ← State.getItem s "stores"
    pure (decide (ss ≠ dictGet step_cycle "stores"))

/-- How a `compare_run` run ends: `finished n` — the spike side returned
`None` after `n` compared commits and the loop `break`s (lines 25-26);
`uncaught n e` — the Python exception `e` was raised at ordinal `n`
(inside `next_commit` or in the comparison expression; uncaught, it
aborts the run); `mismatchStop n` — the mismatch branch printed and
`break`ed at ordinal `n`. -/
inductive RunResult where
  | finished (n : Nat)
  | uncaught (n : Nat) (e : PyError)
  | mismatchStop (n : Nat)
deriving DecidableEq

/-- The `while True` loop of `compare_run` (comparator.py lines 23-32).
Each element of `chunks` is one `next_commit` call's situation: whether
the subprocess is alive at the `run 1` write, and the items then in the
queue. `n` is the ordinal of the current commit and `vc` counts calls to
`vivado.step_cycle()` — the code's only interaction with the RTL side,
made only AFTER a successful spike fetch (line 27); when `spike_state is
None` the loop `break`s at once (lines 25-26), consulting nothing on the
RTL side, and an exception escaping `next_commit` aborts the loop before
`step_cycle` is reached. -/
def compareRunAux : ParserEnv → List (Bool × List PyObj) → Nat → Nat → RunResult × Nat
  | _, [], n, vc => (RunResult.finished n, vc)
  | env, (running, q) :: rest, n, vc =>
      match next_commit running env q with
      | Except.error e => (RunResult.uncaught n e, vc)
      | Except.ok (none, _, _) => (RunResult.finished n, vc)
      | Except.ok (some s, env2, _) =>
          match compareStep s with
          | Except.error e => (RunResult.uncaught n e, vc + 1)
          | Except.ok true => (RunResult.mismatchStop n, vc + 1)
          | Except.ok false => compareRunAux env2 rest (n + 1) (vc + 1)

/-- `compare_run` (comparator.py lines 7-35) on a freshly started
process: the shared default objects of `State.__init__` are still empty. -/
def compare_run (chunks : List (Bool × List PyObj)) : RunResult × Nat :=
  compareRunAux ⟨[], []⟩ chunks 0 0

/-- The empty shared-default environment of a fresh Python process. -/
def env0 : ParserEnv := ⟨[], []⟩

/-- A concrete well-formed commit header line. -/
def hdr1 : String := "core 0: 0x80000000 (0x00000013) addi x0, x0, 0"

/-- A second concrete commit header line (the following instruction). -/
def hdr2 : String := "core 0: 0x80000004 (0x00000093) addi x1, x0, 0"

/-- A concrete commit block: one header plus one store line. -/
def commitBlockB : List String := [hdr1, "store: addr=0x100 data=0x1"]

/-- C1: evaluated at the failing input — a commit header queued the way
the reader threads queue it, as the tuple `('stdout', hdr1)` —
`next_commit` raises `TypeError` at line 109 (`COMMIT_RE.match` on the
tuple) and never recognizes the header, opens a State, or returns one. -/
theorem C1_type_error_no_state :
    next_commit true env0 [enqueue_item StreamTag.stdout hdr1] =
      Except.error PyError.typeError := by decide

/-- C2: evaluated at the failing input — a commit header, one of its
register-write lines and the next commit's header queued as tuples —
`next_commit` raises `TypeError` on the very first item; the non-blocking
sweep is never reached, so no line is consumed into a returned State and
no next-commit line is "left queued" in the claim's sense. -/
theorem C2_type_error_before_sweep :
    next_commit true env0
      [enqueue_item StreamTag.stdout hdr1,
       enqueue_item StreamTag.stdout "x5 = 0x1",
       enqueue_item StreamTag.stdout hdr2] = Except.error PyError.typeError := by
  decide

/-- C3: the three failure modes have pairwise distinct observables —
a launch failure raises `FileNotFoundError` out of `start`, an unexpected
exit raises `BrokenPipeError` out of `next_commit`'s `run 1` stdin write
(lines 100-101), and a fetch timeout returns `None` (`queue.Empty`,
line 107). -/
theorem C3_failure_modes_distinct :
    start false = Except.error PyError.fileNotFound ∧
    next_commit false env0 [] = Except.error PyError.brokenPipe ∧
    next_commit true env0 [] = Except.ok (none, env0, []) ∧
    PyError.fileNotFound ≠ PyError.brokenPipe ∧
    (Except.error PyError.brokenPipe :
        Except PyError (Option StateVal × ParserEnv × List PyObj)) ≠
      Except.ok (none, env0, []) ∧
    (Except.error PyError.fileNotFound : Except PyError Unit) ≠ Except.ok () := by
  decide

/-- C4 counterexample: on a run where the reference side has no commits
at all, `compare_run` ends with a bare `finished` result having consulted
the RTL side zero times — it neither calls the RTL side after the
reference is exhausted nor reports a reference-finished-first divergence. -/
theorem C4_rtl_side_not_consulted :
    compare_run [(true, [])] = (RunResult.finished 0, 0) ∧
    ¬ 1 ≤ (compare_run [(true, [])]).2 := by decide

/-- C4 as amended: whenever the reference side's `next_commit` returns
`None`, `compare_run` breaks out of its loop immediately — without any
further call to the RTL side and without reporting a divergence. -/
theorem C4_silent_finish (env env2 : ParserEnv) (running : Bool) (q : List PyObj)
    (leftover : List PyObj) (rest : List (Bool × List PyObj)) (n vc : Nat)
    (h : next_commit running env q = Except.ok (none, env2, leftover)) :
    compareRunAux env ((running, q) :: rest) n vc = (RunResult.finished n, vc) := by
  simp [compareRunAux, h]

theorem C4_silent_finish_witness :
    compareRunAux env0 [(true, [])] 0 0 = (RunResult.finished 0, 0) :=
  C4_silent_finish env0 env0 true [] [] [] 0 0 (by decide)

/-- C5: evaluated at the failing input — the same well-formed commit
block, queued as `('stdout', line)` tuples — parsing it raises
`TypeError` at line 109 before any state is touched, identically on the
first and on any repeated attempt: no State is ever yielded, so no
byte-identical States are yielded either. -/
theorem C5_type_error_both_parses :
    next_commit true env0 (commitBlockB.map (enqueue_item StreamTag.stdout)) =
      Except.error PyError.typeError := by decide

/-- C6: the wire-contract line `x5=0x1` (no whitespace around the equals
sign) matches the spec's `\s*x<int>\s*=\s*<hex-value>` pattern but not
the code's `REG_RE` (which demands `\s+` on each side of the equals
sign); and no register-write line at all ever sets `registers[n]` — with
a header and a REG_RE-conforming register line queued as the reader
threads queue them, `next_commit` raises `TypeError` before `REG_RE` is
even applied. -/
theorem C6_reg_line_never_sets :
    specRegMatch "x5=0x1" = some (5, "0x1") ∧
    REG_RE_match "x5=0x1" = none ∧
    next_commit true env0
      [enqueue_item StreamTag.stdout hdr1,
       enqueue_item StreamTag.stdout "x5 = 0x1"] =
        Except.error PyError.typeError := by decide

/-- C7: at a run whose reference commit has a distinctive program
counter, the run aborts with `TypeError` raised inside `next_commit`
(line 109) with `vivado.step_cycle` never called, so no pc divergence is
ever reported; and the comparison expression itself (line 28), were it
ever evaluated, references only regs and stores and raises `TypeError`
on State item access for every State — it never examines pc. -/
theorem C7_pc_never_compared :
    compareRunAux env0
      [(true, [enqueue_item StreamTag.stdout "core 0: 0xdeadbeef (0x00000013) nop"])]
      0 0 = (RunResult.uncaught 0 PyError.typeError, 0) ∧
    ∀ s : StateVal, compareStep s = Except.error PyError.typeError :=
  ⟨by decide, fun _ => rfl⟩

/-- C8: evaluated at the failing input — the commit block with
`x5 = 0x1` followed by `x5 = 0x2`, queued as tuples — `next_commit`
raises `TypeError` at line 109: no State with any value for
`registers[5]` is ever produced. -/
theorem C8_no_state_produced :
    next_commit true env0
      ([hdr1, "x5 = 0x1", "x5 = 0x2"].map (enqueue_item StreamTag.stdout)) =
      Except.error PyError.typeError := by decide

/-- C9: evaluated at the failing input — the commit block with the two
store lines, queued as tuples (in either order) — `next_commit` raises
`TypeError` at line 109: no State with any stores sequence is ever
produced. -/
theorem C9_no_stores_appended :
    next_commit true env0
      ([hdr1, "store: addr=0x100 data=0x1", "store: addr=0x104 data=0x2"].map
        (enqueue_item StreamTag.stdout)) = Except.error PyError.typeError ∧
    next_commit true env0
      ([hdr1, "store: addr=0x104 data=0x2", "store: addr=0x100 data=0x1"].map
        (enqueue_item StreamTag.stdout)) = Except.error PyError.typeError := by
  decide

/-- C10 counterexample: at the one concrete run that ought to realize the
claim's premise — a well-formed commit header queued for the reference
side — `next_commit` yields no State at all (it raises `TypeError` at
line 109), and the run aborts with that exception at ordinal 0 with ZERO
`vivado.step_cycle` calls: the `TypeError` does not arise in the
comparison step, which is never reached. -/
theorem C10_premise_fails :
    next_commit true env0 [enqueue_item StreamTag.stdout hdr1] =
      Except.error PyError.typeError ∧
    compareRunAux env0 [(true, [enqueue_item StreamTag.stdout hdr1])] 0 0 =
      (RunResult.uncaught 0 PyError.typeError, 0) := by decide

/-- C10 as amended: on the queues the program builds — every item a
`(tag, line)` tuple — `next_commit` never yields a State: with the
process exited it raises `BrokenPipeError` at the stdin write, with an
empty queue it returns `None`, and with any queued item it raises
`TypeError` at line 109; so `compare_run` never reaches its comparison
step and no comparison verdict is ever produced for any commit. -/
theorem C10_no_state_ever (running : Bool) (env : ParserEnv)
    (tq : List (StreamTag × String)) :
    next_commit running env (tq.map (fun p => enqueue_item p.1 p.2)) =
        Except.error PyError.brokenPipe ∨
    next_commit running env (tq.map (fun p => enqueue_item p.1 p.2)) =
        Except.ok (none, env, []) ∨
    next_commit running env (tq.map (fun p => enqueue_item p.1 p.2)) =
        Except.error PyError.typeError := by
  cases running with
  | false => exact Or.inl rfl
  | true =>
      cases tq with
      | nil => exact Or.inr (Or.inl rfl)
      | cons p ps => exact Or.inr (Or.inr rfl)

end Friscv
